import Mathlib

/-!
Shallow embedding of the music-collection HTTP service (FastAPI + SQLAlchemy):
`main.py`, `security.py`, `models.py`, `schemas.py`.  The relational store is
modelled as explicit lists of rows; each HTTP handler becomes a pure function
from the database state (plus the bearer token and the current time) to an
`Except`-style result.  A raised `HTTPException(status_code, detail)` becomes
`Err.http status_code detail`; an exception escaping the handler (SQLAlchemy's
`MultipleResultsFound` from `Result.scalar_one_or_none`) is its own error
constructor.
-/

deriving instance DecidableEq for Except

namespace MusicAPI

/-- Failure channel of a handler: `http s d` is `HTTPException(status_code=s,
detail=d)`; `multipleResultsFound` is SQLAlchemy's `MultipleResultsFound`
escaping from `Result.scalar_one_or_none()` (surfaced by the framework as an
internal server error, not as a structured HTTP failure). -/
inductive Err where
  | http (status_code : Nat) (detail : String)
  | multipleResultsFound
deriving DecidableEq

/-- Table `models.User`: integer primary key, unique username and email, bcrypt
hash, admin flag. -/
structure User where
  id : Nat
  username : String
  email : String
  hashed_password : String
  is_admin : Bool
deriving DecidableEq

/-- Table `models.Artist`: primary key, name, genre, `owner_id` foreign key. -/
structure Artist where
  id : Nat
  name : String
  genre : String
  owner_id : Nat
deriving DecidableEq

/-- Table `models.Album`. -/
structure Album where
  id : Nat
  title : String
  release_year : Nat
  artist_name : String
  owner_id : Nat
deriving DecidableEq

/-- Table `models.Playlist`. -/
structure Playlist where
  id : Nat
  name : String
  description : Option String
  owner_id : Nat
deriving DecidableEq

/-- The relational store: one list of rows per table. -/
structure DB where
  users : List User
  artists : List Artist
  albums : List Album
  playlists : List Playlist
deriving DecidableEq

/-- SQLAlchemy `Result.scalar_one_or_none()`: `none` when the query matched no
row, the row when it matched exactly one, and raises `MultipleResultsFound`
when it matched two or more. -/
def scalar_one_or_none {α : Type} (rows : List α) : Except Err (Option α) :=
  match rows with
  | [] => .ok none
  | [x] => .ok (some x)
  | _ => .error .multipleResultsFound

/-- Autoincrement integer primary key: the next id handed out by the store,
modelled as one more than the largest id already present (1 on an empty
table). -/
def next_id (ids : List Nat) : Nat :=
  ids.foldr (fun i m => max (i + 1) m) 1

/- ===== security.py ===== -/

/-- Constant `SECRET_KEY = os.getenv("SECRET_KEY", "your-secret-key-change-in-production")`. -/
def SECRET_KEY : String := "your-secret-key-change-in-production"

/-- Constant `ALGORITHM = "HS256"`. -/
def ALGORITHM : String := "HS256"

/-- Constant `ACCESS_TOKEN_EXPIRE_MINUTES = 30`. -/
def ACCESS_TOKEN_EXPIRE_MINUTES : Nat := 30

/-- Modelled from the spec: the Credential Hasher (`passlib` `CryptContext`
with bcrypt, an external collaborator of `security.py`) at its interface
`hash(plaintext) -> hash_string`; deterministic and injective in the
plaintext, standing for a salted one-way hash. -/
def get_password_hash (password : String) : String :=
  "bcrypt-sha256$" ++ password

/-- Modelled from the spec: `verify(plaintext, hash_string) -> bool` of the
external Credential Hasher; true exactly when the plaintext hashes to the
stored string. -/
def verify_password (plain_password hashed_password : String) : Bool :=
  get_password_hash plain_password == hashed_password

/-- A signed JWT as produced by `jose.jwt.encode`: the claims that the code
puts in the payload (`sub`, `exp`), plus the signing key and algorithm that
determine whether a later `decode` accepts the signature.  Time is in seconds. -/
structure Jwt where
  sub : Option String
  exp : Nat
  key : String
  alg : String
deriving DecidableEq

/-- The decoded claims dictionary returned by `jose.jwt.decode`. -/
structure JwtPayload where
  sub : Option String
  exp : Nat
deriving DecidableEq

/-- Function `jose.jwt.encode(claims, key, algorithm)`. -/
def jwt_encode (sub : Option String) (exp : Nat) (key : String) (alg : String) : Jwt :=
  ⟨sub, exp, key, alg⟩

/-- Function `jose.jwt.decode(token, key, algorithms)`: fails (with a `JWTError`) when
the signature was not made with `key`, when the algorithm is not among the
accepted ones, or when the token is expired (`exp < now`, zero leeway);
otherwise returns the claims.  All-or-nothing: no partial trust. -/
def jwt_decode (token : Jwt) (key : String) (algorithms : List String) (now : Nat) :
    Except Unit JwtPayload :=
  if token.key == key && algorithms.contains token.alg then
    if token.exp < now then .error () else .ok ⟨token.sub, token.exp⟩
  else .error ()

/-- The `data` dict passed to `create_access_token`; the code only ever reads
its `"sub"` entry. -/
structure TokenData where
  sub : Option String
deriving DecidableEq

/-- Function `security.create_access_token(data, expires_delta=None)`: copies the
claims, sets `exp` to `now + expires_delta` (or `now + 30 minutes` by
default), and signs with `SECRET_KEY` / `HS256`.  `now` is
`datetime.utcnow()`, passed explicitly; `expires_delta` is in seconds. -/
def create_access_token (data : TokenData) (expires_delta : Option Nat) (now : Nat) : Jwt :=
  let expire :=
    match expires_delta with
    | some d => now + d
    | none => now + ACCESS_TOKEN_EXPIRE_MINUTES * 60
  jwt_encode data.sub expire SECRET_KEY ALGORITHM

/-- Function `security.get_current_user`: decode the bearer token (any `JWTError`,
including expiry, becomes 401 "Невалидный токен"); a missing `sub` claim is
the same 401; then look the username up in storage and fail with 401
"Пользователь не найден" when no such user exists. -/
def get_current_user (db : DB) (token : Jwt) (now : Nat) : Except Err User :=
  match jwt_decode token SECRET_KEY [ALGORITHM] now with
  | .error _ => .error (.http 401 "Невалидный токен")
  | .ok payload =>
    match payload.sub with
    | none => .error (.http 401 "Невалидный токен")
    | some username =>
      match scalar_one_or_none (db.users.filter (fun u => u.username == username)) with
      | .error e => .error e
      | .ok none => .error (.http 401 "Пользователь не найден")
      | .ok (some user) => .ok user

/-- Function `security.get_current_admin_user`: resolve the user, then 403
"недостаточно прав" unless `is_admin`. -/
def get_current_admin_user (db : DB) (token : Jwt) (now : Nat) : Except Err User :=
  match get_current_user db token now with
  | .error e => .error e
  | .ok current_user =>
    if !current_user.is_admin then .error (.http 403 "недостаточно прав")
    else .ok current_user

/- ===== schemas.py (request bodies) ===== -/

/-- Schema `schemas.UserCreate`. -/
structure UserCreate where
  username : String
  email : String
  password : String
deriving DecidableEq

/-- Schema `schemas.ArtistCreate`. -/
structure ArtistCreate where
  name : String
  genre : String
deriving DecidableEq

/-- Schema `schemas.AlbumCreate`. -/
structure AlbumCreate where
  title : String
  release_year : Nat
  artist_name : String
deriving DecidableEq

/-- Schema `schemas.PlaylistCreate`. -/
structure PlaylistCreate where
  name : String
  description : Option String
deriving DecidableEq

/-- Schema `schemas.Token`: the login response. -/
structure Token where
  access_token : Jwt
  token_type : String
deriving DecidableEq

/- ===== main.py handlers ===== -/

/-- Endpoint `POST /register` (`main.register_user`): one combined lookup for a user
with the submitted username OR email; on a hit, 400 naming the username field
when the username matched, otherwise the email field; on no hit, create the
user with `is_admin` exactly when the username is the literal `"admin"`. -/
def register_user (db : DB) (user : UserCreate) : Except Err (DB × User) :=
  match scalar_one_or_none (db.users.filter
      (fun u => u.username == user.username || u.email == user.email)) with
  | .error e => .error e
  | .ok (some existing_user) =>
    if existing_user.username == user.username then
      .error (.http 400 "Username already registered")
    else
      .error (.http 400 "Email already registered")
  | .ok none =>
    let is_admin := user.username == "admin"
    let hashed_password := get_password_hash user.password
    let new_user : User :=
      { id := next_id (db.users.map (fun u => u.id)),
        username := user.username,
        email := user.email,
        hashed_password := hashed_password,
        is_admin := is_admin }
    .ok ({ db with users := db.users ++ [new_user] }, new_user)

/-- Endpoint `POST /login` (`main.login`): look the user up by username; a missing
user or a failed password verification both produce the same
401 "Неверный логин или пароль"; on success issue a bearer token for the
username with the default time-to-live. -/
def login (db : DB) (username password : String) (now : Nat) : Except Err Token :=
  match scalar_one_or_none (db.users.filter (fun u => u.username == username)) with
  | .error e => .error e
  | .ok none => .error (.http 401 "Неверный логин или пароль")
  | .ok (some user) =>
    if verify_password password user.hashed_password then
      .ok { access_token := create_access_token ⟨some user.username⟩ none now,
            token_type := "bearer" }
    else
      .error (.http 401 "Неверный логин или пароль")

/-- Endpoint `POST /artists` (`main.create_artist`): resolve the caller, then insert a
new row whose `owner_id` is the caller's id. -/
def create_artist (db : DB) (token : Jwt) (now : Nat) (artist : ArtistCreate) :
    Except Err (DB × Artist) :=
  match get_current_user db token now with
  | .error e => .error e
  | .ok current_user =>
    let db_artist : Artist :=
      { id := next_id (db.artists.map (fun a => a.id)),
        name := artist.name,
        genre := artist.genre,
        owner_id := current_user.id }
    .ok ({ db with artists := db.artists ++ [db_artist] }, db_artist)

/-- Endpoint `GET /artists/{artist_id}` (`main.get_artist`): the row is fetched with
the filter `id == artist_id AND owner_id == current_user.id`; no match (be it
a nonexistent id or a row owned by someone else) is 404 "Artist not found". -/
def get_artist (db : DB) (token : Jwt) (now : Nat) (artist_id : Nat) : Except Err Artist :=
  match get_current_user db token now with
  | .error e => .error e
  | .ok current_user =>
    match scalar_one_or_none (db.artists.filter
        (fun a => a.id == artist_id && a.owner_id == current_user.id)) with
    | .error e => .error e
    | .ok none => .error (.http 404 "Artist not found")
    | .ok (some artist) => .ok artist

/-- Endpoint `PUT /artists/{artist_id}` (`main.update_artist`): same owner-scoped
fetch as `get_artist`; on a match, overwrite `name` and `genre` of that row
(the ORM flush updates by primary key) and return the updated row. -/
def update_artist (db : DB) (token : Jwt) (now : Nat) (artist_id : Nat)
    (artist : ArtistCreate) : Except Err (DB × Artist) :=
  match get_current_user db token now with
  | .error e => .error e
  | .ok current_user =>
    match scalar_one_or_none (db.artists.filter
        (fun a => a.id == artist_id && a.owner_id == current_user.id)) with
    | .error e => .error e
    | .ok none => .error (.http 404 "Artist not found")
    | .ok (some db_artist) =>
      let updated : Artist := { db_artist with name := artist.name, genre := artist.genre }
      .ok ({ db with artists :=
               db.artists.map (fun a => if a.id == db_artist.id then updated else a) },
           updated)

/-- Endpoint `DELETE /artists/{artist_id}` (`main.delete_artist`): same owner-scoped
fetch; on a match, delete the row (by primary key). -/
def delete_artist (db : DB) (token : Jwt) (now : Nat) (artist_id : Nat) :
    Except Err (DB × String) :=
  match get_current_user db token now with
  | .error e => .error e
  | .ok current_user =>
    match scalar_one_or_none (db.artists.filter
        (fun a => a.id == artist_id && a.owner_id == current_user.id)) with
    | .error e => .error e
    | .ok none => .error (.http 404 "Artist not found")
    | .ok (some db_artist) =>
      .ok ({ db with artists := db.artists.filter (fun a => !(a.id == db_artist.id)) },
           "Artist deleted successfully")

/-- Endpoint `POST /albums` (`main.create_album`). -/
def create_album (db : DB) (token : Jwt) (now : Nat) (album : AlbumCreate) :
    Except Err (DB × Album) :=
  match get_current_user db token now with
  | .error e => .error e
  | .ok current_user =>
    let db_album : Album :=
      { id := next_id (db.albums.map (fun a => a.id)),
        title := album.title,
        release_year := album.release_year,
        artist_name := album.artist_name,
        owner_id := current_user.id }
    .ok ({ db with albums := db.albums ++ [db_album] }, db_album)

/-- Endpoint `POST /playlists` (`main.create_playlist`). -/
def create_playlist (db : DB) (token : Jwt) (now : Nat) (playlist : PlaylistCreate) :
    Except Err (DB × Playlist) :=
  match get_current_user db token now with
  | .error e => .error e
  | .ok current_user =>
    let db_playlist : Playlist :=
      { id := next_id (db.playlists.map (fun p => p.id)),
        name := playlist.name,
        description := playlist.description,
        owner_id := current_user.id }
    .ok ({ db with playlists := db.playlists ++ [db_playlist] }, db_playlist)

/-- Endpoint `GET /admin/users` (`main.get_all_users`): admin-gated, unfiltered list. -/
def get_all_users (db : DB) (token : Jwt) (now : Nat) : Except Err (List User) :=
  match get_current_admin_user db token now with
  | .error e => .error e
  | .ok _ => .ok db.users

/-- Endpoint `DELETE /admin/users/{user_id}` (`main.delete_user`): admin-gated fetch
by id alone; 404 "Пользователь не найден" on no match; otherwise delete the
user, and — via the `cascade="all, delete-orphan"` relationships declared on
`models.User` — every Artist, Album and Playlist whose `owner_id` is the
deleted user's id. -/
def delete_user (db : DB) (token : Jwt) (now : Nat) (user_id : Nat) :
    Except Err (DB × String) :=
  match get_current_admin_user db token now with
  | .error e => .error e
  | .ok _ =>
    match scalar_one_or_none (db.users.filter (fun u => u.id == user_id)) with
    | .error e => .error e
    | .ok none => .error (.http 404 "Пользователь не найден")
    | .ok (some user) =>
      .ok ({ users := db.users.filter (fun u => !(u.id == user.id)),
             artists := db.artists.filter (fun a => !(a.owner_id == user.id)),
             albums := db.albums.filter (fun a => !(a.owner_id == user.id)),
             playlists := db.playlists.filter (fun p => !(p.owner_id == user.id)) },
           "Пользователь " ++ user.username ++ " удален")

/-- Endpoint `GET /admin/artists` (`main.get_all_artists`): admin-gated, unfiltered. -/
def get_all_artists (db : DB) (token : Jwt) (now : Nat) : Except Err (List Artist) :=
  match get_current_admin_user db token now with
  | .error e => .error e
  | .ok _ => .ok db.artists

/-- Endpoint `DELETE /admin/artists/{artist_id}` (`main.admin_delete_artist`):
admin-gated fetch by id alone, no owner filter. -/
def admin_delete_artist (db : DB) (token : Jwt) (now : Nat) (artist_id : Nat) :
    Except Err (DB × String) :=
  match get_current_admin_user db token now with
  | .error e => .error e
  | .ok _ =>
    match scalar_one_or_none (db.artists.filter (fun a => a.id == artist_id)) with
    | .error e => .error e
    | .ok none => .error (.http 404 "Исполнитель не найден")
    | .ok (some artist) =>
      .ok ({ db with artists := db.artists.filter (fun a => !(a.id == artist.id)) },
           "Исполнитель " ++ artist.name ++ " удален")

/-- Endpoint `PUT /admin/users/{user_id}/promote` (`main.promote_to_admin`):
admin-gated; 404 when no user has the id, 400 "Пользователь уже
администратор" when the target is already an admin, otherwise set
`is_admin = True` on the target row. -/
def promote_to_admin (db : DB) (token : Jwt) (now : Nat) (user_id : Nat) :
    Except Err (DB × String) :=
  match get_current_admin_user db token now with
  | .error e => .error e
  | .ok _ =>
    match scalar_one_or_none (db.users.filter (fun u => u.id == user_id)) with
    | .error e => .error e
    | .ok none => .error (.http 404 "Пользователь не найден")
    | .ok (some user) =>
      if user.is_admin then .error (.http 400 "Пользователь уже администратор")
      else
        .ok ({ db with users :=
                 db.users.map (fun u => if u.id == user.id then { u with is_admin := true } else u) },
             user.username ++ " теперь администратор")

/-- Endpoint `PUT /admin/users/{user_id}/demote` (`main.demote_from_admin`):
admin-gated; 404 when no user has the id, 400 "Пользователь и так не
администратор" when the target is already a non-admin, otherwise set
`is_admin = False` on the target row.  No check that the target differs from
the caller. -/
def demote_from_admin (db : DB) (token : Jwt) (now : Nat) (user_id : Nat) :
    Except Err (DB × String) :=
  match get_current_admin_user db token now with
  | .error e => .error e
  | .ok _ =>
    match scalar_one_or_none (db.users.filter (fun u => u.id == user_id)) with
    | .error e => .error e
    | .ok none => .error (.http 404 "Пользователь не найден")
    | .ok (some user) =>
      if !user.is_admin then .error (.http 400 "Пользователь и так не администратор")
      else
        .ok ({ db with users :=
                 db.users.map (fun u => if u.id == user.id then { u with is_admin := false } else u) },
             "У " ++ user.username ++ " забрали права администратора")

/- ===== concrete fixtures for witnesses ===== -/

/-- A registered non-admin user. -/
def alice : User := ⟨1, "alice", "alice@example.com", get_password_hash "secret123", false⟩

/-- A registered admin user. -/
def adminUser : User := ⟨2, "admin", "admin@example.com", get_password_hash "adminpw", true⟩

/-- Another registered non-admin user. -/
def bob : User := ⟨3, "bob", "bob@example.com", get_password_hash "bobpw", false⟩

/-- An artist owned by `alice`. -/
def queen : Artist := ⟨1, "Queen", "rock", 1⟩

/-- A small populated store: three users, and one artist, album and playlist
owned by `alice`. -/
def sampleDB : DB :=
  ⟨[alice, adminUser, bob], [queen],
   [⟨1, "Greatest Hits", 1981, "Queen", 1⟩],
   [⟨1, "Road mix", some "for driving", 1⟩]⟩

/-- The empty store. -/
def emptyDB : DB := ⟨[], [], [], []⟩

/-- A freshly issued bearer token for the given username, issued at time 0. -/
def tokenFor (s : String) : Jwt := create_access_token ⟨some s⟩ none 0

/-- A user for the dual-collision registration scenario. -/
def carol : User := ⟨1, "carol", "carol@example.com", get_password_hash "carolpw", false⟩

/-- A second user for the dual-collision registration scenario. -/
def dave : User := ⟨2, "dave", "dave@example.com", get_password_hash "davepw", false⟩

/-- Store holding `carol` and `dave` only. -/
def dualDB : DB := ⟨[carol, dave], [], [], []⟩

/-- Registration request whose username collides with `carol` and whose
email collides with `dave`. -/
def dualReq : UserCreate := ⟨"carol", "dave@example.com", "password1"⟩

/-- Registration request for the reserved administrator name. -/
def adminReq : UserCreate := ⟨"admin", "admin@example.com", "adminpw"⟩

/-- The row created by registering `adminReq` in the empty store. -/
def adminRow : User := ⟨1, "admin", "admin@example.com", get_password_hash "adminpw", true⟩

/-- Registration request for an ordinary name. -/
def plainReq : UserCreate := ⟨"alice", "alice@example.com", "secret123"⟩

/-- The row created by registering `plainReq` in the empty store. -/
def plainRow : User := ⟨1, "alice", "alice@example.com", get_password_hash "secret123", false⟩

/- ===== helper lemmas ===== -/

/-- The unique element of a singleton filter result is a member satisfying
the predicate. -/
theorem eq_of_filter_singleton {α : Type} {p : α → Bool} {l : List α} {x : α}
    (h : l.filter p = [x]) : x ∈ l ∧ p x = true := by
  have hx : x ∈ l.filter p := by
    rw [h]; exact List.mem_singleton_self x
  exact List.mem_filter.mp hx

/-- After mapping "set `is_admin` to `b` on the row with id `tid`" over a
user table, every row that has id `tid` carries flag `b`. -/
theorem is_admin_of_mem_setFlag {l : List User} {tid : Nat} {b : Bool} {v : User}
    (hv : v ∈ l.map (fun u => if u.id == tid then { u with is_admin := b } else u))
    (hvid : v.id = tid) : v.is_admin = b := by
  simp only [List.mem_map] at hv
  obtain ⟨u0, _, hveq⟩ := hv
  subst hveq
  cases hb : u0.id == tid
  · simp only [hb, Bool.false_eq_true, if_false] at hvid ⊢
    exact absurd hvid (by simpa using hb)
  · simp [hb]

/-- If every admin row has id `aid`, then after mapping "set `is_admin` to
false on the row with id `aid`" no admin row remains at all. -/
theorem no_admin_after_targeted_demote {l : List User} {aid : Nat}
    (hsole : ∀ v ∈ l, v.is_admin = true → v.id = aid) :
    ∀ v ∈ l.map (fun u => if u.id == aid then { u with is_admin := false } else u),
      v.is_admin = false := by
  intro v hv
  simp only [List.mem_map] at hv
  obtain ⟨u0, hu0, hveq⟩ := hv
  subst hveq
  cases hb : u0.id == aid
  · simp only [hb, Bool.false_eq_true, if_false]
    cases hadm : u0.is_admin
    · rfl
    · exact absurd (hsole u0 hu0 hadm) (by simpa using hb)
  · simp [hb]

/- ===== claims ===== -/

/-- C1: for a non-admin principal `P` and artist id `i`, when no artist row
has both id `i` and owner `P`, the read-single and delete operations both
fail with the identical `404 "Artist not found"` — the same failure whether
the id is nonexistent or foreign-owned, and never a 403. -/
theorem claim_C1_owner_scope_notfound (db : DB) (token : Jwt) (now : Nat) (P : User) (i : Nat)
    (hres : get_current_user db token now = .ok P)
    (hP : P.is_admin = false)
    (hno : ∀ a ∈ db.artists, ¬(a.id = i ∧ a.owner_id = P.id)) :
    get_artist db token now i = .error (.http 404 "Artist not found") ∧
    delete_artist db token now i = .error (.http 404 "Artist not found") := by
  have hf : db.artists.filter (fun a => a.id == i && a.owner_id == P.id) = [] := by
    rw [List.filter_eq_nil_iff]
    intro a ha
    simp only [Bool.and_eq_true, beq_iff_eq]
    exact fun hc => hno a ha ⟨hc.1, hc.2⟩
  constructor
  · simp [get_artist, hres, hf, scalar_one_or_none]
  · simp [delete_artist, hres, hf, scalar_one_or_none]

/-- Witness for C1: `bob` (non-admin) asking for artist id 1, which exists
but is owned by `alice`. -/
theorem claim_C1_witness :
    get_current_user sampleDB (tokenFor "bob") 0 = .ok bob ∧
    bob.is_admin = false ∧
    (∀ a ∈ sampleDB.artists, ¬(a.id = 1 ∧ a.owner_id = bob.id)) ∧
    (get_artist sampleDB (tokenFor "bob") 0 1 = .error (.http 404 "Artist not found") ∧
     delete_artist sampleDB (tokenFor "bob") 0 1 = .error (.http 404 "Artist not found")) :=
  ⟨by decide, by decide, by decide,
   claim_C1_owner_scope_notfound sampleDB (tokenFor "bob") 0 bob 1
     (by decide) (by decide) (by decide)⟩

/-- C2: a token issued for subject `s` at time `T` with the default
time-to-live embeds expiry `T + 30` minutes, resolves successfully at
`T + 29` minutes (when the subject exists in storage), and is rejected with
401 at `T + 31` minutes. -/
theorem claim_C2_token_lifetime (s : String) (T : Nat) (db : DB) (u : User)
    (hu : db.users.filter (fun x => x.username == s) = [u]) :
    (create_access_token ⟨some s⟩ none T).exp = T + 30 * 60 ∧
    get_current_user db (create_access_token ⟨some s⟩ none T) (T + 29 * 60) = .ok u ∧
    get_current_user db (create_access_token ⟨some s⟩ none T) (T + 31 * 60) =
      .error (.http 401 "Невалидный токен") := by
  refine ⟨rfl, ?_, ?_⟩
  · have h1 : ¬ (T + 30 * 60 < T + 29 * 60) := by omega
    simp [get_current_user, create_access_token, jwt_encode, jwt_decode,
      ACCESS_TOKEN_EXPIRE_MINUTES, h1, hu, scalar_one_or_none]
  · have h2 : T + 30 * 60 < T + 31 * 60 := by omega
    simp [get_current_user, create_access_token, jwt_encode, jwt_decode,
      ACCESS_TOKEN_EXPIRE_MINUTES, h2]

/-- Witness for C2: subject `"alice"` issued at `T = 0` against `sampleDB`. -/
theorem claim_C2_witness :
    sampleDB.users.filter (fun x => x.username == "alice") = [alice] ∧
    ((create_access_token ⟨some "alice"⟩ none 0).exp = 0 + 30 * 60 ∧
     get_current_user sampleDB (create_access_token ⟨some "alice"⟩ none 0) (0 + 29 * 60) =
       .ok alice ∧
     get_current_user sampleDB (create_access_token ⟨some "alice"⟩ none 0) (0 + 31 * 60) =
       .error (.http 401 "Невалидный токен")) :=
  ⟨by decide, claim_C2_token_lifetime "alice" 0 sampleDB alice (by decide)⟩

/-- C3: for a user `U` that resolves from a token, the admin gate depends
only on `U.is_admin`: it passes `U` through exactly when the flag is true,
and every `/admin/*` operation fails with `403 "недостаточно прав"` when the
flag is false. -/
theorem claim_C3_admin_gate (db : DB) (token : Jwt) (now : Nat) (U : User) (uid : Nat)
    (h : get_current_user db token now = .ok U) :
    (get_current_admin_user db token now =
       if U.is_admin then .ok U else .error (.http 403 "недостаточно прав")) ∧
    (U.is_admin = false →
       get_all_users db token now = .error (.http 403 "недостаточно прав") ∧
       get_all_artists db token now = .error (.http 403 "недостаточно прав") ∧
       delete_user db token now uid = .error (.http 403 "недостаточно прав") ∧
       admin_delete_artist db token now uid = .error (.http 403 "недостаточно прав") ∧
       promote_to_admin db token now uid = .error (.http 403 "недостаточно прав") ∧
       demote_from_admin db token now uid = .error (.http 403 "недостаточно прав")) := by
  have hg : get_current_admin_user db token now =
      if U.is_admin then .ok U else .error (.http 403 "недостаточно прав") := by
    cases hU : U.is_admin
    · simp [get_current_admin_user, h, hU]
    · simp [get_current_admin_user, h, hU]
  refine ⟨hg, fun hfalse => ?_⟩
  rw [hfalse] at hg
  simp only [if_neg Bool.false_ne_true] at hg
  exact ⟨by simp [get_all_users, hg], by simp [get_all_artists, hg],
         by simp [delete_user, hg], by simp [admin_delete_artist, hg],
         by simp [promote_to_admin, hg], by simp [demote_from_admin, hg]⟩

/-- Witness for C3: `bob` (non-admin) hitting the admin gate and every
`/admin/*` endpoint with target id 1. -/
theorem claim_C3_witness :
    get_current_user sampleDB (tokenFor "bob") 0 = .ok bob ∧
    ((get_current_admin_user sampleDB (tokenFor "bob") 0 =
        if bob.is_admin then .ok bob else .error (.http 403 "недостаточно прав")) ∧
     (bob.is_admin = false →
        get_all_users sampleDB (tokenFor "bob") 0 = .error (.http 403 "недостаточно прав") ∧
        get_all_artists sampleDB (tokenFor "bob") 0 = .error (.http 403 "недостаточно прав") ∧
        delete_user sampleDB (tokenFor "bob") 0 1 = .error (.http 403 "недостаточно прав") ∧
        admin_delete_artist sampleDB (tokenFor "bob") 0 1 = .error (.http 403 "недостаточно прав") ∧
        promote_to_admin sampleDB (tokenFor "bob") 0 1 = .error (.http 403 "недостаточно прав") ∧
        demote_from_admin sampleDB (tokenFor "bob") 0 1 = .error (.http 403 "недостаточно прав"))) :=
  ⟨by decide, claim_C3_admin_gate sampleDB (tokenFor "bob") 0 bob 1 (by decide)⟩

/-- C4: login fails with the one identical `401 "Неверный логин или пароль"`
both when no user has the submitted username and when the user exists but
the password does not verify: the two failure cases are indistinguishable
to the caller. -/
theorem claim_C4_login_uniform_error (db : DB) (username password : String) (now : Nat)
    (h : db.users.filter (fun u => u.username == username) = [] ∨
         ∃ user, db.users.filter (fun u => u.username == username) = [user] ∧
           verify_password password user.hashed_password = false) :
    login db username password now = .error (.http 401 "Неверный логин или пароль") := by
  rcases h with h | ⟨user, hf, hv⟩
  · simp [login, h, scalar_one_or_none]
  · simp [login, hf, scalar_one_or_none, hv]

/-- Witness for C4: a nonexistent username, and `alice` with a wrong
password, both produce the same error value. -/
theorem claim_C4_witness :
    login sampleDB "nobody" "whatever" 0 = .error (.http 401 "Неверный логин или пароль") ∧
    login sampleDB "alice" "wrongpass" 0 = .error (.http 401 "Неверный логин или пароль") :=
  ⟨claim_C4_login_uniform_error sampleDB "nobody" "whatever" 0 (Or.inl (by decide)),
   claim_C4_login_uniform_error sampleDB "alice" "wrongpass" 0
     (Or.inr ⟨alice, by decide, by decide⟩)⟩

/-- C5 (amended): when the combined username-or-email lookup matches exactly
one existing user, register fails with a Conflict naming the username field
when that user's username equals the submitted one, and the email field
otherwise; but when the lookup matches two or more rows (username matching
one user, email a different one), `scalar_one_or_none` raises
`MultipleResultsFound` and no field-identifying Conflict is produced. -/
theorem claim_C5_register_conflict_field (db : DB) (user : UserCreate) :
    (∀ eu, db.users.filter
        (fun u => u.username == user.username || u.email == user.email) = [eu] →
       register_user db user = .error (.http 400
         (if eu.username == user.username then "Username already registered"
          else "Email already registered"))) ∧
    (∀ x y t, db.users.filter
        (fun u => u.username == user.username || u.email == user.email) = x :: y :: t →
       register_user db user = .error .multipleResultsFound) := by
  constructor
  · intro eu h
    cases he : eu.username == user.username <;>
      simp [register_user, h, scalar_one_or_none, he]
  · intro x y t h
    simp [register_user, h, scalar_one_or_none]

/-- Counterexample to C5 as stated: with `carol` and `dave` registered, a
request whose username collides with `carol` and whose email collides with
`dave` does not fail with a Conflict naming either field — the combined
lookup raises `MultipleResultsFound` instead. -/
theorem claim_C5_counterexample :
    register_user dualDB dualReq = .error .multipleResultsFound ∧
    register_user dualDB dualReq ≠ .error (.http 400 "Username already registered") ∧
    register_user dualDB dualReq ≠ .error (.http 400 "Email already registered") := by
  decide

/-- Witness for C5 (amended): registering `alice`'s username with a fresh
email against `sampleDB` yields the username-field Conflict. -/
theorem claim_C5_witness :
    sampleDB.users.filter
      (fun u => u.username == "alice" || u.email == "fresh@example.com") = [alice] ∧
    register_user sampleDB ⟨"alice", "fresh@example.com", "newpassword"⟩ =
      .error (.http 400
        (if alice.username == "alice" then "Username already registered"
         else "Email already registered")) :=
  ⟨by decide,
   (claim_C5_register_conflict_field sampleDB ⟨"alice", "fresh@example.com", "newpassword"⟩).1
     alice (by decide)⟩

/-- C6: a successfully created user is an admin exactly when the submitted
username is the literal `"admin"` — independent of the prior contents of the
store (in particular, being the first registered user grants nothing). -/
theorem claim_C6_admin_bootstrap (db : DB) (user : UserCreate) (db2 : DB) (nu : User)
    (h : register_user db user = .ok (db2, nu)) :
    nu.is_admin = (user.username == "admin") := by
  rcases hl : db.users.filter (fun u => u.username == user.username || u.email == user.email)
    with _ | ⟨x, _ | ⟨y, t⟩⟩
  · simp only [register_user, hl, scalar_one_or_none, Except.ok.injEq, Prod.mk.injEq] at h
    rw [← h.2]
  · cases hx : x.username == user.username <;>
      simp [register_user, hl, scalar_one_or_none, hx] at h
  · simp [register_user, hl, scalar_one_or_none] at h

/-- Witness for C6: registering the reserved name in the empty store yields
an admin; registering an ordinary name yields a non-admin. -/
theorem claim_C6_witness :
    (register_user emptyDB adminReq = .ok (⟨[adminRow], [], [], []⟩, adminRow) ∧
     adminRow.is_admin = (adminReq.username == "admin")) ∧
    (register_user emptyDB plainReq = .ok (⟨[plainRow], [], [], []⟩, plainRow) ∧
     plainRow.is_admin = (plainReq.username == "admin")) :=
  ⟨⟨by decide, claim_C6_admin_bootstrap emptyDB adminReq ⟨[adminRow], [], [], []⟩ adminRow (by decide)⟩,
   ⟨by decide, claim_C6_admin_bootstrap emptyDB plainReq ⟨[plainRow], [], [], []⟩ plainRow (by decide)⟩⟩

/-- C7: with an admin caller resolved, promote fails 404 when no user has
the target id and 400 Conflict when the target is already an admin, and
otherwise sets the flag to true; demote is symmetric (404, Conflict when
already a non-admin, otherwise sets the flag to false). -/
theorem claim_C7_promote_demote (db : DB) (token : Jwt) (now : Nat) (A : User) (uid : Nat)
    (hA : get_current_admin_user db token now = .ok A) :
    (db.users.filter (fun u => u.id == uid) = [] →
       promote_to_admin db token now uid = .error (.http 404 "Пользователь не найден") ∧
       demote_from_admin db token now uid = .error (.http 404 "Пользователь не найден")) ∧
    (∀ user, db.users.filter (fun u => u.id == uid) = [user] →
       (user.is_admin = true →
          promote_to_admin db token now uid =
            .error (.http 400 "Пользователь уже администратор") ∧
          ∃ db2 msg, demote_from_admin db token now uid = .ok (db2, msg) ∧
            ∀ v ∈ db2.users, v.id = uid → v.is_admin = false) ∧
       (user.is_admin = false →
          demote_from_admin db token now uid =
            .error (.http 400 "Пользователь и так не администратор") ∧
          ∃ db2 msg, promote_to_admin db token now uid = .ok (db2, msg) ∧
            ∀ v ∈ db2.users, v.id = uid → v.is_admin = true)) := by
  constructor
  · intro hnil
    constructor
    · simp [promote_to_admin, hA, hnil, scalar_one_or_none]
    · simp [demote_from_admin, hA, hnil, scalar_one_or_none]
  · intro user hf
    have hid : user.id = uid := by
      have := (eq_of_filter_singleton hf).2
      simpa using this
    constructor
    · intro hadm
      refine ⟨by simp [promote_to_admin, hA, hf, scalar_one_or_none, hadm], ?_⟩
      refine ⟨{ db with users := db.users.map (fun u => if u.id == user.id then { u with is_admin := false } else u) }, "У " ++ user.username ++ " забрали права администратора", ?_, ?_⟩
      · simp [demote_from_admin, hA, hf, scalar_one_or_none, hadm]
      · intro v hv hvid
        exact is_admin_of_mem_setFlag hv (hvid.trans hid.symm)
    · intro hadm
      refine ⟨by simp [demote_from_admin, hA, hf, scalar_one_or_none, hadm], ?_⟩
      refine ⟨{ db with users := db.users.map (fun u => if u.id == user.id then { u with is_admin := true } else u) }, user.username ++ " теперь администратор", ?_, ?_⟩
      · simp [promote_to_admin, hA, hf, scalar_one_or_none, hadm]
      · intro v hv hvid
        exact is_admin_of_mem_setFlag hv (hvid.trans hid.symm)

/-- Witness for C7: the admin of `sampleDB` targeting user id 1 (`alice`,
a non-admin) and, via the same theorem, exercising the 404 for the empty
filter case through id 99. -/
theorem claim_C7_witness :
    get_current_admin_user sampleDB (tokenFor "admin") 0 = .ok adminUser ∧
    ((sampleDB.users.filter (fun u => u.id == 99) = [] →
        promote_to_admin sampleDB (tokenFor "admin") 0 99 =
          .error (.http 404 "Пользователь не найден") ∧
        demote_from_admin sampleDB (tokenFor "admin") 0 99 =
          .error (.http 404 "Пользователь не найден")) ∧
     (∀ user, sampleDB.users.filter (fun u => u.id == 99) = [user] →
        (user.is_admin = true →
           promote_to_admin sampleDB (tokenFor "admin") 0 99 =
             .error (.http 400 "Пользователь уже администратор") ∧
           ∃ db2 msg, demote_from_admin sampleDB (tokenFor "admin") 0 99 = .ok (db2, msg) ∧
             ∀ v ∈ db2.users, v.id = 99 → v.is_admin = false) ∧
        (user.is_admin = false →
           demote_from_admin sampleDB (tokenFor "admin") 0 99 =
             .error (.http 400 "Пользователь и так не администратор") ∧
           ∃ db2 msg, promote_to_admin sampleDB (tokenFor "admin") 0 99 = .ok (db2, msg) ∧
             ∀ v ∈ db2.users, v.id = 99 → v.is_admin = true))) :=
  ⟨by decide, claim_C7_promote_demote sampleDB (tokenFor "admin") 0 adminUser 99 (by decide)⟩

/-- C8: with an admin caller resolved, delete_user fails 404 when no user
has the target id, and otherwise removes the user together with every
Artist, Album and Playlist owned by that id — afterwards no owned record
with that `owner_id` (and no user with that id) remains. -/
theorem claim_C8_delete_user_cascade (db : DB) (token : Jwt) (now : Nat) (A : User) (uid : Nat)
    (hA : get_current_admin_user db token now = .ok A) :
    (db.users.filter (fun u => u.id == uid) = [] →
       delete_user db token now uid = .error (.http 404 "Пользователь не найден")) ∧
    (∀ user, db.users.filter (fun u => u.id == uid) = [user] →
       delete_user db token now uid =
         .ok (⟨db.users.filter (fun u => !(u.id == user.id)),
               db.artists.filter (fun a => !(a.owner_id == user.id)),
               db.albums.filter (fun a => !(a.owner_id == user.id)),
               db.playlists.filter (fun p => !(p.owner_id == user.id))⟩,
              "Пользователь " ++ user.username ++ " удален") ∧
       (∀ v ∈ db.users.filter (fun u => !(u.id == user.id)), v.id ≠ uid) ∧
       (∀ r ∈ db.artists.filter (fun a => !(a.owner_id == user.id)), r.owner_id ≠ uid) ∧
       (∀ r ∈ db.albums.filter (fun a => !(a.owner_id == user.id)), r.owner_id ≠ uid) ∧
       (∀ r ∈ db.playlists.filter (fun p => !(p.owner_id == user.id)), r.owner_id ≠ uid)) := by
  constructor
  · intro hnil
    simp [delete_user, hA, hnil, scalar_one_or_none]
  · intro user hf
    have hid : user.id = uid := by
      have := (eq_of_filter_singleton hf).2
      simpa using this
    refine ⟨by simp [delete_user, hA, hf, scalar_one_or_none], ?_, ?_, ?_, ?_⟩
    · intro v hv
      have h2 := (List.mem_filter.mp hv).2
      rw [← hid]
      simpa using h2
    · intro r hr
      have h2 := (List.mem_filter.mp hr).2
      rw [← hid]
      simpa using h2
    · intro r hr
      have h2 := (List.mem_filter.mp hr).2
      rw [← hid]
      simpa using h2
    · intro r hr
      have h2 := (List.mem_filter.mp hr).2
      rw [← hid]
      simpa using h2

/-- Witness for C8: the admin of `sampleDB` deleting user id 1 (`alice`,
who owns the artist, album and playlist of the store). -/
theorem claim_C8_witness :
    get_current_admin_user sampleDB (tokenFor "admin") 0 = .ok adminUser ∧
    ((sampleDB.users.filter (fun u => u.id == 1) = [] →
        delete_user sampleDB (tokenFor "admin") 0 1 =
          .error (.http 404 "Пользователь не найден")) ∧
     (∀ user, sampleDB.users.filter (fun u => u.id == 1) = [user] →
        delete_user sampleDB (tokenFor "admin") 0 1 =
          .ok (⟨sampleDB.users.filter (fun u => !(u.id == user.id)),
                sampleDB.artists.filter (fun a => !(a.owner_id == user.id)),
                sampleDB.albums.filter (fun a => !(a.owner_id == user.id)),
                sampleDB.playlists.filter (fun p => !(p.owner_id == user.id))⟩,
               "Пользователь " ++ user.username ++ " удален") ∧
        (∀ v ∈ sampleDB.users.filter (fun u => !(u.id == user.id)), v.id ≠ 1) ∧
        (∀ r ∈ sampleDB.artists.filter (fun a => !(a.owner_id == user.id)), r.owner_id ≠ 1) ∧
        (∀ r ∈ sampleDB.albums.filter (fun a => !(a.owner_id == user.id)), r.owner_id ≠ 1) ∧
        (∀ r ∈ sampleDB.playlists.filter (fun p => !(p.owner_id == user.id)), r.owner_id ≠ 1))) :=
  ⟨by decide, claim_C8_delete_user_cascade sampleDB (tokenFor "admin") 0 adminUser 1 (by decide)⟩

/-- C9: every owned resource is created with `owner_id` equal to the
resolved caller's id, and the artist update operation rewrites only the
`name` and `genre` of the matched row: the matched row keeps its id and
owner, every row keeps its `(id, owner_id)` pair, rows with a different id
survive unchanged, and the other tables are untouched. -/
theorem claim_C9_owner_id_frame (db : DB) (token : Jwt) (now : Nat) (U : User)
    (hres : get_current_user db token now = .ok U)
    (hpk : (db.artists.map (fun a => a.id)).Nodup) :
    (∀ ac db2 a, create_artist db token now ac = .ok (db2, a) → a.owner_id = U.id) ∧
    (∀ alc db2 al, create_album db token now alc = .ok (db2, al) → al.owner_id = U.id) ∧
    (∀ pc db2 p, create_playlist db token now pc = .ok (db2, p) → p.owner_id = U.id) ∧
    (∀ aid ac db2 a2, update_artist db token now aid ac = .ok (db2, a2) →
       a2.id = aid ∧ a2.owner_id = U.id ∧ a2.name = ac.name ∧ a2.genre = ac.genre ∧
       db2.users = db.users ∧ db2.albums = db.albums ∧ db2.playlists = db.playlists ∧
       db2.artists.map (fun a => (a.id, a.owner_id)) =
         db.artists.map (fun a => (a.id, a.owner_id)) ∧
       (∀ a ∈ db.artists, a.id ≠ aid → a ∈ db2.artists)) := by
  refine ⟨?_, ?_, ?_, ?_⟩
  · intro ac db2 a h
    simp only [create_artist, hres, Except.ok.injEq, Prod.mk.injEq] at h
    rw [← h.2]
  · intro alc db2 al h
    simp only [create_album, hres, Except.ok.injEq, Prod.mk.injEq] at h
    rw [← h.2]
  · intro pc db2 p h
    simp only [create_playlist, hres, Except.ok.injEq, Prod.mk.injEq] at h
    rw [← h.2]
  · intro aid ac db2 a2 h
    simp only [update_artist, hres] at h
    rcases hl : db.artists.filter (fun a => a.id == aid && a.owner_id == U.id)
      with _ | ⟨da, _ | ⟨y, t⟩⟩
    · rw [hl] at h; simp [scalar_one_or_none] at h
    · rw [hl] at h
      simp only [scalar_one_or_none, Except.ok.injEq, Prod.mk.injEq] at h
      obtain ⟨hdb2, ha2⟩ := h
      have hmem := eq_of_filter_singleton hl
      have hda : da.id = aid ∧ da.owner_id = U.id := by
        have := hmem.2
        simp only [Bool.and_eq_true, beq_iff_eq] at this
        exact this
      refine ⟨?_, ?_, ?_, ?_, ?_, ?_, ?_, ?_, ?_⟩
      · rw [← ha2]; exact hda.1
      · rw [← ha2]; exact hda.2
      · rw [← ha2]
      · rw [← ha2]
      · rw [← hdb2]
      · rw [← hdb2]
      · rw [← hdb2]
      · rw [← hdb2]
        rw [List.map_map]
        apply List.map_congr_left
        intro a ha
        simp only [Function.comp_apply]
        cases hb : a.id == da.id
        · simp [hb]
        · have haid : a.id = da.id := by simpa using hb
          have haeq : a = da := List.inj_on_of_nodup_map hpk ha hmem.1 haid
          subst haeq
          simp
      · intro a ha hne
        rw [← hdb2]
        refine List.mem_map.mpr ⟨a, ha, ?_⟩
        have hbne : (a.id == da.id) = false := by
          rw [hda.1]
          simpa using hne
        simp [hbne]
    · rw [hl] at h; simp [scalar_one_or_none] at h

/-- Witness for C9: `alice` resolved against `sampleDB`, whose artist table
has distinct primary keys. -/
theorem claim_C9_witness :
    get_current_user sampleDB (tokenFor "alice") 0 = .ok alice ∧
    (sampleDB.artists.map (fun a => a.id)).Nodup ∧
    ((∀ ac db2 a, create_artist sampleDB (tokenFor "alice") 0 ac = .ok (db2, a) →
        a.owner_id = alice.id) ∧
     (∀ alc db2 al, create_album sampleDB (tokenFor "alice") 0 alc = .ok (db2, al) →
        al.owner_id = alice.id) ∧
     (∀ pc db2 p, create_playlist sampleDB (tokenFor "alice") 0 pc = .ok (db2, p) →
        p.owner_id = alice.id) ∧
     (∀ aid ac db2 a2, update_artist sampleDB (tokenFor "alice") 0 aid ac = .ok (db2, a2) →
        a2.id = aid ∧ a2.owner_id = alice.id ∧ a2.name = ac.name ∧ a2.genre = ac.genre ∧
        db2.users = sampleDB.users ∧ db2.albums = sampleDB.albums ∧
        db2.playlists = sampleDB.playlists ∧
        db2.artists.map (fun a => (a.id, a.owner_id)) =
          sampleDB.artists.map (fun a => (a.id, a.owner_id)) ∧
        (∀ a ∈ sampleDB.artists, a.id ≠ aid → a ∈ db2.artists))) :=
  ⟨by decide, by decide,
   claim_C9_owner_id_frame sampleDB (tokenFor "alice") 0 alice (by decide) (by decide)⟩

/-- C10: demote performs no self-target check: an admin may demote their
own id; the call succeeds, the caller's row loses the flag, and if the
caller was the only admin the store is left with no admin at all. -/
theorem claim_C10_self_demote (db : DB) (token : Jwt) (now : Nat) (A : User)
    (hA : get_current_admin_user db token now = .ok A)
    (hfind : db.users.filter (fun u => u.id == A.id) = [A]) :
    ∃ db2 msg, demote_from_admin db token now A.id = .ok (db2, msg) ∧
      (∀ v ∈ db2.users, v.id = A.id → v.is_admin = false) ∧
      ((∀ v ∈ db.users, v.is_admin = true → v.id = A.id) →
        ∀ v ∈ db2.users, v.is_admin = false) := by
  have hAadm : A.is_admin = true := by
    unfold get_current_admin_user at hA
    cases hres : get_current_user db token now with
    | error e => rw [hres] at hA; simp at hA
    | ok cu =>
      rw [hres] at hA
      cases hcu : cu.is_admin
      · simp [hcu] at hA
      · simp [hcu] at hA
        rw [← hA]; exact hcu
  refine ⟨{ db with users := db.users.map (fun u => if u.id == A.id then { u with is_admin := false } else u) }, "У " ++ A.username ++ " забрали права администратора", ?_, ?_, ?_⟩
  · simp [demote_from_admin, hA, hfind, scalar_one_or_none, hAadm]
  · intro v hv hvid
    exact is_admin_of_mem_setFlag hv hvid
  · intro hsole v hv
    exact no_admin_after_targeted_demote hsole v hv

/-- Witness for C10: the sole admin of `sampleDB` demoting their own id. -/
theorem claim_C10_witness :
    get_current_admin_user sampleDB (tokenFor "admin") 0 = .ok adminUser ∧
    sampleDB.users.filter (fun u => u.id == adminUser.id) = [adminUser] ∧
    (∃ db2 msg, demote_from_admin sampleDB (tokenFor "admin") 0 adminUser.id = .ok (db2, msg) ∧
       (∀ v ∈ db2.users, v.id = adminUser.id → v.is_admin = false) ∧
       ((∀ v ∈ sampleDB.users, v.is_admin = true → v.id = adminUser.id) →
         ∀ v ∈ db2.users, v.is_admin = false)) :=
  ⟨by decide, by decide,
   claim_C10_self_demote sampleDB (tokenFor "admin") 0 adminUser (by decide) (by decide)⟩

end MusicAPI
